import Mathlib

/-!
# M5Reader: the splash screen and the 2x4 menu

A shallow embedding of `display_splash_screen.h` and `display_menu.h`.

Both routines receive an `M5GFX &display` and do nothing but call methods on
it.  The driver is modelled by the two dimensions it reports (`width()`,
`height()`) together with the log of the effectful calls made so far; every
driver method used by the source appends one entry to that log.  The C++
`int` arithmetic is carried out in `Int`, with `/` rendered as `Int.tdiv`
(division truncating towards zero).  `int32_in_range` below shows that no
intermediate value leaves the 32-bit range when the reported dimensions are
32-bit values, so no wrap-around has to be modelled.
-/

namespace M5Reader

/-- The two colour constants the source names.  Their numeric values are set
in the driver library's headers, which are not part of the repository, so they
are taken as parameters. -/
structure Palette where
  TFT_WHITE : Nat
  TFT_BLACK : Nat
  deriving DecidableEq, Repr

/-- One effectful call on the display driver (or the global `delay`). -/
inductive Call where
  | clear (color : Nat)
  | setTextSize (size : Nat)
  | setTextColor (fg bg : Nat)
  | setCursor (x y : Int)
  | print (s : String)
  | println (s : String)
  | drawRect (x y w h : Int) (color : Nat)
  | startWrite
  | endWrite
  | display
  | delay (ms : Nat)
  deriving DecidableEq, Repr

/-- The driver object: the dimensions it reports and the calls received. -/
structure M5GFX where
  width : Int
  height : Int
  calls : List Call
  deriving DecidableEq, Repr

namespace M5GFX

/-- Record one call; the reported dimensions do not change. -/
def emit (d : M5GFX) (c : Call) : M5GFX := { d with calls := d.calls ++ [c] }

def clear (d : M5GFX) (color : Nat) : M5GFX := d.emit (Call.clear color)
def setTextSize (d : M5GFX) (size : Nat) : M5GFX := d.emit (Call.setTextSize size)
def setTextColor (d : M5GFX) (fg bg : Nat) : M5GFX := d.emit (Call.setTextColor fg bg)
def setCursor (d : M5GFX) (x y : Int) : M5GFX := d.emit (Call.setCursor x y)
def print (d : M5GFX) (s : String) : M5GFX := d.emit (Call.print s)
def println (d : M5GFX) (s : String) : M5GFX := d.emit (Call.println s)
def drawRect (d : M5GFX) (x y w h : Int) (color : Nat) : M5GFX :=
  d.emit (Call.drawRect x y w h color)
def startWrite (d : M5GFX) : M5GFX := d.emit Call.startWrite
def display (d : M5GFX) : M5GFX := d.emit Call.display

end M5GFX

/-- The global `delay(ms)`, logged on the same timeline as the driver calls. -/
def delay (d : M5GFX) (ms : Nat) : M5GFX := d.emit (Call.delay ms)

/-- C++ `a / b` on `int`: the quotient truncated towards zero. -/
def cdiv (a b : Int) : Int := Int.tdiv a b

/-- `displaySplashScreen` of `display_splash_screen.h`, line by line. -/
def displaySplashScreen (c : Palette) (display : M5GFX) : M5GFX :=
  let display := display.clear c.TFT_WHITE
  let display := display.setTextColor c.TFT_BLACK c.TFT_WHITE
  let display := display.setTextSize 4
  let display := display.setCursor (cdiv display.width 2 - 80) (cdiv display.height 2 - 30)
  let display := display.println "M5Reader"
  delay display 2000

/-- `displayMenu` of `display_menu.h`, line by line. -/
def displayMenu (c : Palette) (display : M5GFX) : M5GFX :=
  let display := display.clear c.TFT_WHITE
  let display := display.setTextSize 3
  let tileWidth : Int := cdiv display.width 2
  let tileHeight : Int := cdiv display.height 4
  let display := display.startWrite
  let display := display.drawRect 0 0 tileWidth tileHeight c.TFT_BLACK
  let display := display.setTextColor c.TFT_BLACK c.TFT_WHITE
  let display := display.setCursor (cdiv tileWidth 2 - 30) (cdiv tileHeight 2 - 8)
  let display := display.print "Books"
  let display := display.drawRect tileWidth 0 tileWidth tileHeight c.TFT_BLACK
  let display := display.setTextColor c.TFT_BLACK c.TFT_WHITE
  let display := display.setCursor (tileWidth + cdiv tileWidth 2 - 40) (cdiv tileHeight 2 - 8)
  let display := display.print "Settings"
  let display := display.drawRect 0 tileHeight tileWidth tileHeight c.TFT_BLACK
  let display := display.setCursor (cdiv tileWidth 2 - 30) (tileHeight + cdiv tileHeight 2 - 8)
  let display := display.print "Recent"
  let display := display.drawRect tileWidth tileHeight tileWidth tileHeight c.TFT_BLACK
  let display := display.setCursor (tileWidth + cdiv tileWidth 2 - 30)
    (tileHeight + cdiv tileHeight 2 - 8)
  let display := display.print "Search"
  let display := display.drawRect 0 (2 * tileHeight) tileWidth tileHeight c.TFT_BLACK
  let display := display.setCursor (cdiv tileWidth 2 - 50) (2 * tileHeight + cdiv tileHeight 2 - 8)
  let display := display.print "Bookmarks"
  let display := display.drawRect tileWidth (2 * tileHeight) tileWidth tileHeight c.TFT_BLACK
  let display := display.setCursor (tileWidth + cdiv tileWidth 2 - 45)
    (2 * tileHeight + cdiv tileHeight 2 - 8)
  let display := display.print "Calibrate"
  let display := display.drawRect 0 (3 * tileHeight) tileWidth tileHeight c.TFT_BLACK
  let display := display.setCursor (cdiv tileWidth 2 - 30) (3 * tileHeight + cdiv tileHeight 2 - 8)
  let display := display.print "About"
  let display := display.drawRect tileWidth (3 * tileHeight) tileWidth tileHeight c.TFT_BLACK
  let display := display.setCursor (tileWidth + cdiv tileWidth 2 - 20)
    (3 * tileHeight + cdiv tileHeight 2 - 8)
  let display := display.print "Help"
  display.display

/-- A driver that reports `w` by `h` and has received no call yet. -/
def fresh (w h : Int) : M5GFX := { width := w, height := h, calls := [] }

/-- The calls `displaySplashScreen` issues on a `w` by `h` display. -/
def splashCalls (c : Palette) (w h : Int) : List Call :=
  (displaySplashScreen c (fresh w h)).calls

/-- The calls `displayMenu` issues on a `w` by `h` display. -/
def menuCalls (c : Palette) (w h : Int) : List Call :=
  (displayMenu c (fresh w h)).calls

/-- The colour values the driver library commonly assigns (RGB565 white and
black); used only where a closed example needs some palette. -/
def rgb565 : Palette := { TFT_WHITE := 65535, TFT_BLACK := 0 }

/-! ## Observations on a call log -/

/-- The rectangle of a `drawRect(x, y, w, h, color)` call. -/
structure Rect where
  x : Int
  y : Int
  w : Int
  h : Int
  deriving DecidableEq, Repr

/-- Pixel `(px, py)` lies in the half-open region `[x, x+w) x [y, y+h)`. -/
def Rect.contains (r : Rect) (px py : Int) : Prop :=
  r.x ≤ px ∧ px < r.x + r.w ∧ r.y ≤ py ∧ py < r.y + r.h

instance (r : Rect) (px py : Int) : Decidable (r.contains px py) := by
  unfold Rect.contains; infer_instance

/-- Pixel `(px, py)` lies in the display region `[0, w) x [0, h)`. -/
def inDisplay (w h px py : Int) : Prop := 0 ≤ px ∧ px < w ∧ 0 ≤ py ∧ py < h

instance (w h px py : Int) : Decidable (inDisplay w h px py) := by
  unfold inDisplay; infer_instance

def isDrawRect : Call → Bool
  | Call.drawRect _ _ _ _ _ => true
  | _ => false

/-- Text output: `print` or `println`. -/
def isPrint : Call → Bool
  | Call.print _ => true
  | Call.println _ => true
  | _ => false

/-- Calls that put pixels into the frame buffer. -/
def isDrawing : Call → Bool
  | Call.clear _ => true
  | Call.drawRect _ _ _ _ _ => true
  | Call.print _ => true
  | Call.println _ => true
  | _ => false

def rectOf : Call → Option Rect
  | Call.drawRect x y w h _ => some ⟨x, y, w, h⟩
  | _ => none

def labelOf : Call → Option String
  | Call.print s => some s
  | Call.println s => some s
  | _ => none

/-- The rectangles drawn, in call order. -/
def drawnRects (t : List Call) : List Rect := t.filterMap rectOf

/-- The texts printed, in call order. -/
def printedLabels (t : List Call) : List String := t.filterMap labelOf

/-- Walk the log remembering the rectangle drawn last; every `setCursor`
issued after some `drawRect` is paired with that rectangle. -/
def cursorTilePairsFrom : Option Rect → List Call → List (Rect × Int × Int)
  | _, [] => []
  | cur, a :: t =>
    match a, cur with
    | Call.drawRect x y w h _, _ => cursorTilePairsFrom (some ⟨x, y, w, h⟩) t
    | Call.setCursor cx cy, some r => (r, cx, cy) :: cursorTilePairsFrom cur t
    | _, _ => cursorTilePairsFrom cur t

def cursorTilePairs (t : List Call) : List (Rect × Int × Int) := cursorTilePairsFrom none t

/-- The cursor of a pair lies inside the pair's rectangle. -/
def cursorInside (p : Rect × Int × Int) : Prop := p.1.contains p.2.1 p.2.2

instance (p : Rect × Int × Int) : Decidable (cursorInside p) := by
  unfold cursorInside; infer_instance

/-- Walk the log remembering the cursor set last; every text printed after
some `setCursor` is reported with that cursor. -/
def labelledCursorsFrom : Option (Int × Int) → List Call → List (String × Int × Int)
  | _, [] => []
  | cur, a :: t =>
    match a, cur with
    | Call.setCursor cx cy, _ => labelledCursorsFrom (some (cx, cy)) t
    | Call.print s, some q => (s, q.1, q.2) :: labelledCursorsFrom cur t
    | Call.println s, some q => (s, q.1, q.2) :: labelledCursorsFrom cur t
    | _, _ => labelledCursorsFrom cur t

def labelledCursors (t : List Call) : List (String × Int × Int) := labelledCursorsFrom none t

/-- Walk the log remembering the rectangle drawn last and the cursor set since
the last text output; every text printed is reported with that rectangle and
with that cursor, the position where the text starts.  Printing moves the
cursor on by an amount the font fixes, so the cursor is forgotten after each
print and a text printed without a fresh `setCursor` is not reported. -/
def labelledTilesFrom :
    Option Rect → Option (Int × Int) → List Call → List (String × Rect × Int × Int)
  | _, _, [] => []
  | tile, cur, a :: t =>
    match a, tile, cur with
    | Call.drawRect x y w h _, _, _ => labelledTilesFrom (some ⟨x, y, w, h⟩) cur t
    | Call.setCursor cx cy, _, _ => labelledTilesFrom tile (some (cx, cy)) t
    | Call.print s, some r, some q => (s, r, q.1, q.2) :: labelledTilesFrom tile none t
    | Call.println s, some r, some q => (s, r, q.1, q.2) :: labelledTilesFrom tile none t
    | Call.print _, _, _ => labelledTilesFrom tile none t
    | Call.println _, _, _ => labelledTilesFrom tile none t
    | _, _, _ => labelledTilesFrom tile cur t

def labelledTiles (t : List Call) : List (String × Rect × Int × Int) :=
  labelledTilesFrom none none t

/-- How many of the rectangles contain the pixel. -/
def coverCount (rs : List Rect) (px py : Int) : Nat :=
  rs.countP (fun r => decide (r.contains px py))

/-- Every display pixel lies in exactly one rectangle, and no rectangle has a
pixel outside the display. -/
def partitionsDisplay (rs : List Rect) (w h : Int) : Prop :=
  ∀ px py : Int, (inDisplay w h px py → coverCount rs px py = 1) ∧
    (∀ r ∈ rs, r.contains px py → inDisplay w h px py)

/-- Every display pixel lies in some rectangle. -/
def coversDisplay (rs : List Rect) (w h : Int) : Prop :=
  ∀ px py : Int, inDisplay w h px py → ∃ r ∈ rs, r.contains px py

/-- The log has a `display()` call after its last drawing call. -/
def flushedAfterDrawing (t : List Call) : Bool :=
  (t.reverse.takeWhile (fun a => !isDrawing a)).contains Call.display

/-- The value fits a 32-bit signed `int`. -/
def int32 (v : Int) : Prop := -2147483648 ≤ v ∧ v ≤ 2147483647

theorem splashCalls_eq (c : Palette) (w h : Int) :
    splashCalls c w h =
      [Call.clear c.TFT_WHITE, Call.setTextColor c.TFT_BLACK c.TFT_WHITE, Call.setTextSize 4,
       Call.setCursor (cdiv w 2 - 80) (cdiv h 2 - 30), Call.println "M5Reader",
       Call.delay 2000] := rfl

theorem menuCalls_eq (c : Palette) (w h : Int) :
    menuCalls c w h =
      [Call.clear c.TFT_WHITE, Call.setTextSize 3, Call.startWrite,
       Call.drawRect 0 0 (cdiv w 2) (cdiv h 4) c.TFT_BLACK,
       Call.setTextColor c.TFT_BLACK c.TFT_WHITE,
       Call.setCursor (cdiv (cdiv w 2) 2 - 30) (cdiv (cdiv h 4) 2 - 8),
       Call.print "Books",
       Call.drawRect (cdiv w 2) 0 (cdiv w 2) (cdiv h 4) c.TFT_BLACK,
       Call.setTextColor c.TFT_BLACK c.TFT_WHITE,
       Call.setCursor (cdiv w 2 + cdiv (cdiv w 2) 2 - 40) (cdiv (cdiv h 4) 2 - 8),
       Call.print "Settings",
       Call.drawRect 0 (cdiv h 4) (cdiv w 2) (cdiv h 4) c.TFT_BLACK,
       Call.setCursor (cdiv (cdiv w 2) 2 - 30) (cdiv h 4 + cdiv (cdiv h 4) 2 - 8),
       Call.print "Recent",
       Call.drawRect (cdiv w 2) (cdiv h 4) (cdiv w 2) (cdiv h 4) c.TFT_BLACK,
       Call.setCursor (cdiv w 2 + cdiv (cdiv w 2) 2 - 30) (cdiv h 4 + cdiv (cdiv h 4) 2 - 8),
       Call.print "Search",
       Call.drawRect 0 (2 * cdiv h 4) (cdiv w 2) (cdiv h 4) c.TFT_BLACK,
       Call.setCursor (cdiv (cdiv w 2) 2 - 50) (2 * cdiv h 4 + cdiv (cdiv h 4) 2 - 8),
       Call.print "Bookmarks",
       Call.drawRect (cdiv w 2) (2 * cdiv h 4) (cdiv w 2) (cdiv h 4) c.TFT_BLACK,
       Call.setCursor (cdiv w 2 + cdiv (cdiv w 2) 2 - 45) (2 * cdiv h 4 + cdiv (cdiv h 4) 2 - 8),
       Call.print "Calibrate",
       Call.drawRect 0 (3 * cdiv h 4) (cdiv w 2) (cdiv h 4) c.TFT_BLACK,
       Call.setCursor (cdiv (cdiv w 2) 2 - 30) (3 * cdiv h 4 + cdiv (cdiv h 4) 2 - 8),
       Call.print "About",
       Call.drawRect (cdiv w 2) (3 * cdiv h 4) (cdiv w 2) (cdiv h 4) c.TFT_BLACK,
       Call.setCursor (cdiv w 2 + cdiv (cdiv w 2) 2 - 20) (3 * cdiv h 4 + cdiv (cdiv h 4) 2 - 8),
       Call.print "Help",
       Call.display] := by
  simp [menuCalls, displayMenu, fresh, M5GFX.emit, M5GFX.clear, M5GFX.setTextSize,
    M5GFX.setTextColor, M5GFX.setCursor, M5GFX.print, M5GFX.drawRect, M5GFX.startWrite,
    M5GFX.display]

theorem displayMenu_calls (c : Palette) (d : M5GFX) :
    (displayMenu c d).calls = d.calls ++ menuCalls c d.width d.height ∧
      (displayMenu c d).width = d.width ∧ (displayMenu c d).height = d.height := by
  simp [menuCalls, displayMenu, fresh, M5GFX.emit, M5GFX.clear, M5GFX.setTextSize,
    M5GFX.setTextColor, M5GFX.setCursor, M5GFX.print, M5GFX.drawRect, M5GFX.startWrite,
    M5GFX.display]

theorem displaySplashScreen_calls (c : Palette) (d : M5GFX) :
    (displaySplashScreen c d).calls = d.calls ++ splashCalls c d.width d.height ∧
      (displaySplashScreen c d).width = d.width ∧
      (displaySplashScreen c d).height = d.height := by
  simp [splashCalls, displaySplashScreen, fresh, M5GFX.emit, M5GFX.clear, M5GFX.setTextSize,
    M5GFX.setTextColor, M5GFX.setCursor, M5GFX.println, delay]


/-! ## Truncating division by the two literals the source uses -/

theorem cdiv_two (a : Int) :
    (0 ≤ a → cdiv a 2 = a / 2) ∧ (a < 0 → cdiv a 2 = -((-a) / 2)) := by
  constructor
  · intro ha
    exact Int.tdiv_eq_ediv ha (by decide)
  · intro ha
    have h1 : cdiv a 2 = -(Int.tdiv (-a) 2) := by
      rw [Int.neg_tdiv, neg_neg]; rfl
    rw [h1, Int.tdiv_eq_ediv (by omega) (by decide)]

theorem cdiv_four (a : Int) :
    (0 ≤ a → cdiv a 4 = a / 4) ∧ (a < 0 → cdiv a 4 = -((-a) / 4)) := by
  constructor
  · intro ha
    exact Int.tdiv_eq_ediv ha (by decide)
  · intro ha
    have h1 : cdiv a 4 = -(Int.tdiv (-a) 4) := by
      rw [Int.neg_tdiv, neg_neg]; rfl
    rw [h1, Int.tdiv_eq_ediv (by omega) (by decide)]

/-- No arithmetic step of either routine leaves the 32-bit range when the
reported dimensions are 32-bit values. -/
theorem int32_in_range (w h : Int) (hw : int32 w) (hh : int32 h) :
    int32 (cdiv w 2) ∧ int32 (cdiv h 4) ∧ int32 (cdiv h 2) ∧
    int32 (cdiv w 2 - 80) ∧ int32 (cdiv h 2 - 30) ∧
    int32 (cdiv (cdiv w 2) 2) ∧ int32 (cdiv (cdiv h 4) 2) ∧
    int32 (cdiv (cdiv w 2) 2 - 50) ∧ int32 (cdiv (cdiv w 2) 2 - 30) ∧
    int32 (cdiv w 2 + cdiv (cdiv w 2) 2) ∧
    int32 (cdiv w 2 + cdiv (cdiv w 2) 2 - 45) ∧ int32 (cdiv w 2 + cdiv (cdiv w 2) 2 - 40) ∧
    int32 (cdiv w 2 + cdiv (cdiv w 2) 2 - 30) ∧ int32 (cdiv w 2 + cdiv (cdiv w 2) 2 - 20) ∧
    int32 (cdiv (cdiv h 4) 2 - 8) ∧
    int32 (cdiv h 4 + cdiv (cdiv h 4) 2) ∧ int32 (cdiv h 4 + cdiv (cdiv h 4) 2 - 8) ∧
    int32 (2 * cdiv h 4) ∧ int32 (2 * cdiv h 4 + cdiv (cdiv h 4) 2) ∧
    int32 (2 * cdiv h 4 + cdiv (cdiv h 4) 2 - 8) ∧
    int32 (3 * cdiv h 4) ∧ int32 (3 * cdiv h 4 + cdiv (cdiv h 4) 2) ∧
    int32 (3 * cdiv h 4 + cdiv (cdiv h 4) 2 - 8) := by
  unfold int32 at hw hh
  have e1 : -1073741824 ≤ cdiv w 2 ∧ cdiv w 2 ≤ 1073741823 := by
    have := cdiv_two w; omega
  have e2 : -536870912 ≤ cdiv (cdiv w 2) 2 ∧ cdiv (cdiv w 2) 2 ≤ 536870911 := by
    have := cdiv_two (cdiv w 2); omega
  have e3 : -536870912 ≤ cdiv h 4 ∧ cdiv h 4 ≤ 536870911 := by
    have := cdiv_four h; omega
  have e4 : -268435456 ≤ cdiv (cdiv h 4) 2 ∧ cdiv (cdiv h 4) 2 ≤ 268435455 := by
    have := cdiv_two (cdiv h 4); omega
  have e5 : -1073741824 ≤ cdiv h 2 ∧ cdiv h 2 ≤ 1073741823 := by
    have := cdiv_two h; omega
  unfold int32
  repeat' apply And.intro
  all_goals omega

/-! ## The menu's call sequence -/

/-- C1: on every `w` by `h` display `displayMenu` issues exactly eight
`drawRect` calls and exactly eight print calls; the `k`-th rectangle is
`drawRect((k mod 2)*tw, (k div 2)*th, tw, th, TFT_BLACK)` with `tw = w/2`,
`th = h/4` (truncating), the labels are the eight fixed strings in order, and
rectangles and labels alternate, each rectangle followed by its own label. -/
theorem displayMenu_grid_and_labels (c : Palette) (w h : Int) :
    ((menuCalls c w h).filter isDrawRect).length = 8 ∧
    ((menuCalls c w h).filter isPrint).length = 8 ∧
    (menuCalls c w h).filter isDrawRect =
      (List.range 8).map (fun k =>
        Call.drawRect (((k % 2 : Nat) : Int) * cdiv w 2) (((k / 2 : Nat) : Int) * cdiv h 4)
          (cdiv w 2) (cdiv h 4) c.TFT_BLACK) ∧
    (menuCalls c w h).filter isPrint =
      ["Books", "Settings", "Recent", "Search", "Bookmarks", "Calibrate", "About",
        "Help"].map Call.print ∧
    (menuCalls c w h).filter (fun a => isDrawRect a || isPrint a) =
      ((List.range 8).zip ["Books", "Settings", "Recent", "Search", "Bookmarks", "Calibrate",
        "About", "Help"]).flatMap (fun ks =>
          [Call.drawRect (((ks.1 % 2 : Nat) : Int) * cdiv w 2)
             (((ks.1 / 2 : Nat) : Int) * cdiv h 4) (cdiv w 2) (cdiv h 4) c.TFT_BLACK,
           Call.print ks.2]) := by
  rw [menuCalls_eq]
  simp [isDrawRect, isPrint, List.range, List.range.loop, List.filter, List.flatMap]

/-- C7: the cursor set for the `k`-th tile is
`(x_k + tw/2 - d_k, y_k + th/2 - 8)`, where `(x_k, y_k)` is the origin of the
rectangle drawn just before and `d_0..d_7 = 30, 40, 30, 30, 50, 45, 30, 20`;
and the `k`-th label is the text printed from that cursor, so every label
starts 8 pixels above and `d_k` pixels left of the centre of its own tile. -/
theorem displayMenu_cursor_offsets (c : Palette) (w h : Int) :
    cursorTilePairs (menuCalls c w h) =
      ((List.range 8).zip ([30, 40, 30, 30, 50, 45, 30, 20] : List Int)).map (fun kd =>
        ((⟨((kd.1 % 2 : Nat) : Int) * cdiv w 2, ((kd.1 / 2 : Nat) : Int) * cdiv h 4,
            cdiv w 2, cdiv h 4⟩ : Rect),
          ((kd.1 % 2 : Nat) : Int) * cdiv w 2 + cdiv (cdiv w 2) 2 - kd.2,
          ((kd.1 / 2 : Nat) : Int) * cdiv h 4 + cdiv (cdiv h 4) 2 - 8)) ∧
    labelledTiles (menuCalls c w h) =
      ((List.range 8).zip
        ((["Books", "Settings", "Recent", "Search", "Bookmarks", "Calibrate", "About",
            "Help"] : List String).zip
          ([30, 40, 30, 30, 50, 45, 30, 20] : List Int))).map (fun k =>
        (k.2.1,
          (⟨((k.1 % 2 : Nat) : Int) * cdiv w 2, ((k.1 / 2 : Nat) : Int) * cdiv h 4,
            cdiv w 2, cdiv h 4⟩ : Rect),
          ((k.1 % 2 : Nat) : Int) * cdiv w 2 + cdiv (cdiv w 2) 2 - k.2.2,
          ((k.1 / 2 : Nat) : Int) * cdiv h 4 + cdiv (cdiv h 4) 2 - 8)) ∧
    (labelledTiles (menuCalls c w h)).length = ((menuCalls c w h).filter isPrint).length := by
  rw [menuCalls_eq]
  simp [cursorTilePairs, cursorTilePairsFrom, labelledTiles, labelledTilesFrom, isPrint,
    List.range, List.range.loop]

/-- C10: in the menu's call sequence `clear(TFT_WHITE)` comes first and
`setTextSize(3)` second, `startWrite()` occurs exactly once and before the
first `drawRect`, `display()` is the last call, and `endWrite()` never occurs. -/
theorem displayMenu_transaction_shape (c : Palette) (w h : Int) :
    (menuCalls c w h)[0]? = some (Call.clear c.TFT_WHITE) ∧
    (menuCalls c w h)[1]? = some (Call.setTextSize 3) ∧
    (menuCalls c w h).count Call.startWrite = 1 ∧
    (menuCalls c w h).indexOf Call.startWrite < (menuCalls c w h).findIdx isDrawRect ∧
    (menuCalls c w h).findIdx isDrawRect < (menuCalls c w h).length ∧
    (menuCalls c w h).getLast? = some Call.display ∧
    Call.endWrite ∉ menuCalls c w h := by
  rw [menuCalls_eq]
  simp [isDrawRect, List.indexOf, List.findIdx, List.findIdx.go, cond_eq_if]

/-! ## The splash screen's call sequence -/

/-- C6: on every `w` by `h` display `displaySplashScreen` issues exactly
`clear(TFT_WHITE)`, `setTextColor(TFT_BLACK, TFT_WHITE)`, `setTextSize(4)`,
`setCursor(w/2 - 80, h/2 - 30)`, `println("M5Reader")`, `delay(2000)`: the
clear is first, the text size is set before the title is printed, and the
pause is last. -/
theorem displaySplashScreen_sequence (c : Palette) (w h : Int) :
    splashCalls c w h =
      [Call.clear c.TFT_WHITE, Call.setTextColor c.TFT_BLACK c.TFT_WHITE, Call.setTextSize 4,
       Call.setCursor (cdiv w 2 - 80) (cdiv h 2 - 30), Call.println "M5Reader",
       Call.delay 2000] ∧
    (splashCalls c w h).head? = some (Call.clear c.TFT_WHITE) ∧
    (splashCalls c w h).indexOf (Call.setTextSize 4) <
      (splashCalls c w h).indexOf (Call.println "M5Reader") ∧
    (splashCalls c w h).indexOf (Call.println "M5Reader") < (splashCalls c w h).length ∧
    (splashCalls c w h).getLast? = some (Call.delay 2000) := by
  rw [splashCalls_eq]
  simp [List.indexOf, List.findIdx, List.findIdx.go, cond_eq_if]

/-- C5, refuted as stated: on a 540 by 960 display the splash routine's log
has no `display()` after its last drawing call. -/
theorem flush_claim_fails_on_splash :
    ¬ (flushedAfterDrawing (splashCalls rgb565 540 960) = true ∧
        flushedAfterDrawing (menuCalls rgb565 540 960) = true) := by
  decide

/-- C5, amended: `displayMenu` ends with `display()`, issued after its last
drawing call; `displaySplashScreen` never calls `display()` and ends with
`delay(2000)`. -/
theorem flush_only_in_displayMenu (c : Palette) (w h : Int) :
    flushedAfterDrawing (menuCalls c w h) = true ∧
    (menuCalls c w h).getLast? = some Call.display ∧
    Call.display ∉ splashCalls c w h ∧
    flushedAfterDrawing (splashCalls c w h) = false ∧
    (splashCalls c w h).getLast? = some (Call.delay 2000) := by
  rw [menuCalls_eq, splashCalls_eq]
  simp [flushedAfterDrawing, isDrawing, List.takeWhile]

/-! ## Geometry of the tiles -/

/-- The eight rectangles of the menu, read off the call log. -/
theorem drawnRects_menu (c : Palette) (w h : Int) :
    drawnRects (menuCalls c w h) =
      [⟨0, 0, cdiv w 2, cdiv h 4⟩, ⟨cdiv w 2, 0, cdiv w 2, cdiv h 4⟩,
       ⟨0, cdiv h 4, cdiv w 2, cdiv h 4⟩, ⟨cdiv w 2, cdiv h 4, cdiv w 2, cdiv h 4⟩,
       ⟨0, 2 * cdiv h 4, cdiv w 2, cdiv h 4⟩, ⟨cdiv w 2, 2 * cdiv h 4, cdiv w 2, cdiv h 4⟩,
       ⟨0, 3 * cdiv h 4, cdiv w 2, cdiv h 4⟩, ⟨cdiv w 2, 3 * cdiv h 4, cdiv w 2, cdiv h 4⟩] := by
  rw [menuCalls_eq]
  simp [drawnRects, rectOf]

/-- A pixel is in one tile of a `tw` by `th` grid when it is in the grid's
extent, and in none otherwise. -/
theorem coverCount_grid (tw th px py : Int) :
    coverCount
      [⟨0, 0, tw, th⟩, ⟨tw, 0, tw, th⟩, ⟨0, th, tw, th⟩, ⟨tw, th, tw, th⟩,
       ⟨0, 2 * th, tw, th⟩, ⟨tw, 2 * th, tw, th⟩, ⟨0, 3 * th, tw, th⟩,
       ⟨tw, 3 * th, tw, th⟩] px py =
      if 0 ≤ px ∧ px < 2 * tw ∧ 0 ≤ py ∧ py < 4 * th then 1 else 0 := by
  simp only [coverCount, List.countP_cons, List.countP_nil, Rect.contains, decide_eq_true_eq]
  split_ifs <;> omega

/-- A pixel lies in some tile exactly when it lies in the grid's extent. -/
theorem mem_grid_iff (c : Palette) (w h px py : Int) :
    (∃ r ∈ drawnRects (menuCalls c w h), r.contains px py) ↔
      inDisplay (2 * cdiv w 2) (4 * cdiv h 4) px py := by
  rw [drawnRects_menu]
  simp only [List.mem_cons, List.mem_singleton, List.not_mem_nil, or_false, exists_eq_or_imp,
    exists_eq_left, Rect.contains, inDisplay]
  omega

/-- The eight cursors of the menu, each with the rectangle drawn before it. -/
theorem cursorTilePairs_menu (c : Palette) (w h : Int) :
    cursorTilePairs (menuCalls c w h) =
      [(⟨0, 0, cdiv w 2, cdiv h 4⟩, cdiv (cdiv w 2) 2 - 30, cdiv (cdiv h 4) 2 - 8),
       (⟨cdiv w 2, 0, cdiv w 2, cdiv h 4⟩, cdiv w 2 + cdiv (cdiv w 2) 2 - 40,
         cdiv (cdiv h 4) 2 - 8),
       (⟨0, cdiv h 4, cdiv w 2, cdiv h 4⟩, cdiv (cdiv w 2) 2 - 30,
         cdiv h 4 + cdiv (cdiv h 4) 2 - 8),
       (⟨cdiv w 2, cdiv h 4, cdiv w 2, cdiv h 4⟩, cdiv w 2 + cdiv (cdiv w 2) 2 - 30,
         cdiv h 4 + cdiv (cdiv h 4) 2 - 8),
       (⟨0, 2 * cdiv h 4, cdiv w 2, cdiv h 4⟩, cdiv (cdiv w 2) 2 - 50,
         2 * cdiv h 4 + cdiv (cdiv h 4) 2 - 8),
       (⟨cdiv w 2, 2 * cdiv h 4, cdiv w 2, cdiv h 4⟩, cdiv w 2 + cdiv (cdiv w 2) 2 - 45,
         2 * cdiv h 4 + cdiv (cdiv h 4) 2 - 8),
       (⟨0, 3 * cdiv h 4, cdiv w 2, cdiv h 4⟩, cdiv (cdiv w 2) 2 - 30,
         3 * cdiv h 4 + cdiv (cdiv h 4) 2 - 8),
       (⟨cdiv w 2, 3 * cdiv h 4, cdiv w 2, cdiv h 4⟩, cdiv w 2 + cdiv (cdiv w 2) 2 - 20,
         3 * cdiv h 4 + cdiv (cdiv h 4) 2 - 8)] := by
  rw [menuCalls_eq]
  simp [cursorTilePairs, cursorTilePairsFrom]

/-- All eight cursors are inside their tiles exactly when half the tile width
is at least 50 and half the tile height at least 8. -/
theorem cursors_inside_iff (c : Palette) (w h : Int) :
    (∀ p ∈ cursorTilePairs (menuCalls c w h), cursorInside p) ↔
      (50 ≤ cdiv (cdiv w 2) 2 ∧ cdiv (cdiv w 2) 2 - 20 < cdiv w 2 ∧
        8 ≤ cdiv (cdiv h 4) 2 ∧ cdiv (cdiv h 4) 2 - 8 < cdiv h 4) := by
  rw [cursorTilePairs_menu]
  simp only [List.forall_mem_cons, List.not_mem_nil, cursorInside, Rect.contains]
  constructor
  · intro hp
    omega
  · intro hp
    simp only [IsEmpty.forall_iff, implies_true, and_true]
    omega

/-- C2, refuted as stated: a 135 by 240 display gets tiles 67 wide, and
`67 * 2` is not `135`. -/
theorem tile_width_twice_ne_width :
    ¬ (∀ r ∈ drawnRects (menuCalls rgb565 135 240), r.w * 2 = 135 ∧ r.h * 4 = 240) := by
  decide

/-- C2, amended: every tile is `w/2` wide and `h/4` high under truncating
division, so twice the tile width is `w` less its remainder by 2 and four times
the tile height is `h` less its remainder by 4; they equal `w` and `h` exactly
when `w` is even and `h` is a multiple of 4. -/
theorem tile_size_exact_iff (c : Palette) (w h : Int) :
    (∀ r ∈ drawnRects (menuCalls c w h), r.w = cdiv w 2 ∧ r.h = cdiv h 4) ∧
    cdiv w 2 * 2 = w - Int.tmod w 2 ∧ cdiv h 4 * 4 = h - Int.tmod h 4 ∧
    ((∀ r ∈ drawnRects (menuCalls c w h), r.w * 2 = w ∧ r.h * 4 = h) ↔ (2 ∣ w ∧ 4 ∣ h)) := by
  have hw := cdiv_two w
  have hh := cdiv_four h
  have mw := Int.tmod_add_tdiv w 2
  have mh := Int.tmod_add_tdiv h 4
  rw [drawnRects_menu]
  simp only [List.forall_mem_cons, List.not_mem_nil, IsEmpty.forall_iff, implies_true, and_true,
    and_self]
  refine ⟨trivial, ?_, ?_, ?_⟩
  · unfold cdiv; omega
  · unfold cdiv; omega
  · omega

/-- The cover count of the menu's tiles at a pixel. -/
theorem coverCount_menu (c : Palette) (w h px py : Int) :
    coverCount (drawnRects (menuCalls c w h)) px py =
      if 0 ≤ px ∧ px < 2 * cdiv w 2 ∧ 0 ≤ py ∧ py < 4 * cdiv h 4 then 1 else 0 := by
  rw [drawnRects_menu, coverCount_grid]

/-- C3, refuted as stated: on a 135 by 240 display the pixel `(134, 0)` lies in
no tile. -/
theorem tiles_miss_last_column :
    ¬ partitionsDisplay (drawnRects (menuCalls rgb565 135 240)) 135 240 :=
  fun hp => absurd ((hp 134 0).1 (by decide)) (by decide)

/-- C3, amended: for `w > 0` and `h > 0` the eight tiles partition the display
region (every display pixel in exactly one tile, no tile pixel outside the
display) exactly when `w` is even and `h` is a multiple of 4. -/
theorem tiles_partition_iff (c : Palette) (w h : Int) (hw : 0 < w) (hh : 0 < h) :
    partitionsDisplay (drawnRects (menuCalls c w h)) w h ↔ (2 ∣ w ∧ 4 ∣ h) := by
  have dw := cdiv_two w
  have dh := cdiv_four h
  constructor
  · intro hp
    have h1 := (hp (w - 1) 0).1 (by unfold inDisplay; omega)
    have h2 := (hp 0 (h - 1)).1 (by unfold inDisplay; omega)
    rw [coverCount_menu] at h1 h2
    split_ifs at h1 h2
    omega
  · intro hd px py
    have e1 : 2 * cdiv w 2 = w := by omega
    have e2 : 4 * cdiv h 4 = h := by omega
    constructor
    · intro hin
      rw [coverCount_menu, e1, e2]
      exact if_pos hin
    · intro r hr hc
      have := (mem_grid_iff c w h px py).mp ⟨r, hr, hc⟩
      rwa [e1, e2] at this

/-- The partition criterion applied to a 540 by 960 display. -/
theorem tiles_partition_iff_witness :
    (0 : Int) < 540 ∧ (0 : Int) < 960 ∧
      (partitionsDisplay (drawnRects (menuCalls rgb565 540 960)) 540 960 ↔
        ((2 : Int) ∣ 540 ∧ (4 : Int) ∣ 960)) :=
  ⟨by decide, by decide, tiles_partition_iff rgb565 540 960 (by decide) (by decide)⟩

/-- C4, refuted as stated: on a 100 by 100 display the first cursor is at
`x = 25 - 30 = -5`, left of its tile. -/
theorem cursor_leaves_tile_on_small_display :
    ¬ (∀ p ∈ cursorTilePairs (menuCalls rgb565 100 100), cursorInside p) := by
  decide

/-- C4, amended: when `w ≥ 200` and `h ≥ 64`, each of the eight `setCursor`
calls places the cursor inside the rectangle drawn immediately before it. -/
theorem cursors_inside_large_display (c : Palette) (w h : Int) (hw : 200 ≤ w) (hh : 64 ≤ h) :
    (cursorTilePairs (menuCalls c w h)).length = 8 ∧
      ∀ p ∈ cursorTilePairs (menuCalls c w h), cursorInside p := by
  refine ⟨by rw [cursorTilePairs_menu]; rfl, ?_⟩
  rw [cursors_inside_iff]
  have h1 := cdiv_two w
  have h2 := cdiv_four h
  have h3 := cdiv_two (cdiv w 2)
  have h4 := cdiv_two (cdiv h 4)
  omega

/-- The large-display cursor bound applied to a 320 by 240 display. -/
theorem cursors_inside_large_display_witness :
    (200 : Int) ≤ 320 ∧ (64 : Int) ≤ 240 ∧
      (cursorTilePairs (menuCalls rgb565 320 240)).length = 8 ∧
      ∀ p ∈ cursorTilePairs (menuCalls rgb565 320 240), cursorInside p :=
  ⟨by decide, by decide, cursors_inside_large_display rgb565 320 240 (by decide) (by decide)⟩

/-- C8: for `w ≥ 0` and `h ≥ 0` all eight cursors lie inside their own tiles
if and only if `w ≥ 200` and `h ≥ 64`; when `w < 200` the "Bookmarks" cursor
`x = tw/2 - 50` is negative, and when `h < 64` every cursor is above its tile. -/
theorem cursors_inside_threshold (c : Palette) (w h : Int) (hw : 0 ≤ w) (hh : 0 ≤ h) :
    (cursorTilePairs (menuCalls c w h)).length = 8 ∧
    ((∀ p ∈ cursorTilePairs (menuCalls c w h), cursorInside p) ↔ (200 ≤ w ∧ 64 ≤ h)) ∧
    (w < 200 →
      ("Bookmarks", cdiv (cdiv w 2) 2 - 50, 2 * cdiv h 4 + cdiv (cdiv h 4) 2 - 8) ∈
          labelledCursors (menuCalls c w h) ∧
        cdiv (cdiv w 2) 2 - 50 < 0) ∧
    (h < 64 → ∀ p ∈ cursorTilePairs (menuCalls c w h), p.2.2 < p.1.y) := by
  have h1 := cdiv_two w
  have h2 := cdiv_four h
  have h3 := cdiv_two (cdiv w 2)
  have h4 := cdiv_two (cdiv h 4)
  refine ⟨by rw [cursorTilePairs_menu]; rfl, ?_, ?_, ?_⟩
  · rw [cursors_inside_iff]
    omega
  · intro hlt
    refine ⟨?_, by omega⟩
    rw [menuCalls_eq]
    simp [labelledCursors, labelledCursorsFrom]
  · intro hlt
    rw [cursorTilePairs_menu]
    simp only [List.forall_mem_cons, List.not_mem_nil, IsEmpty.forall_iff, implies_true,
      and_true]
    omega

/-- The cursor threshold applied to a 135 by 240 display, which is below the
width threshold. -/
theorem cursors_inside_threshold_witness :
    (0 : Int) ≤ 135 ∧ (0 : Int) ≤ 240 ∧
    (cursorTilePairs (menuCalls rgb565 135 240)).length = 8 ∧
    ((∀ p ∈ cursorTilePairs (menuCalls rgb565 135 240), cursorInside p) ↔
      ((200 : Int) ≤ 135 ∧ (64 : Int) ≤ 240)) ∧
    ((135 : Int) < 200 →
      ("Bookmarks", cdiv (cdiv 135 2) 2 - 50, 2 * cdiv 240 4 + cdiv (cdiv 240 4) 2 - 8) ∈
          labelledCursors (menuCalls rgb565 135 240) ∧
        cdiv (cdiv 135 2) 2 - 50 < 0) ∧
    ((240 : Int) < 64 → ∀ p ∈ cursorTilePairs (menuCalls rgb565 135 240), p.2.2 < p.1.y) :=
  ⟨by decide, by decide, cursors_inside_threshold rgb565 135 240 (by decide) (by decide)⟩

/-- C9, refuted as stated: a display reporting width 0 and height 1 has no
pixel, so the tiles cover all of it, yet 1 is not a multiple of 4. -/
theorem empty_display_covered_without_divisibility :
    ¬ (coversDisplay (drawnRects (menuCalls rgb565 0 1)) 0 1 ↔
        ((2 : Int) ∣ 0 ∧ (4 : Int) ∣ 1)) := by
  intro hiff
  have hd := hiff.mp (fun px py hin => absurd hin (by unfold inDisplay; omega))
  omega

/-- C9, amended: for `w ≥ 0` and `h ≥ 0` the eight tiles are pairwise
disjoint, all contained in the display region, and their union is exactly
`[0, 2*(w/2)) x [0, 4*(h/4))`; the display pixels in no tile are those of the
rightmost `w mod 2` columns and the bottom `h mod 4` rows; and the tiles cover
the whole display exactly when `w` is even and `h` a multiple of 4, or the
display has no pixel at all (`w = 0` or `h = 0`). -/
theorem tiles_disjoint_and_cover (c : Palette) (w h : Int) (hw : 0 ≤ w) (hh : 0 ≤ h) :
    (drawnRects (menuCalls c w h)).length = 8 ∧
    (drawnRects (menuCalls c w h)).Pairwise
      (fun r s => ∀ px py : Int, ¬ (r.contains px py ∧ s.contains px py)) ∧
    (∀ r ∈ drawnRects (menuCalls c w h), ∀ px py : Int,
      r.contains px py → inDisplay w h px py) ∧
    (∀ px py : Int, (∃ r ∈ drawnRects (menuCalls c w h), r.contains px py) ↔
      inDisplay (2 * cdiv w 2) (4 * cdiv h 4) px py) ∧
    (∀ px py : Int, inDisplay w h px py →
      ((¬ ∃ r ∈ drawnRects (menuCalls c w h), r.contains px py) ↔
        (w - w % 2 ≤ px ∨ h - h % 4 ≤ py))) ∧
    (coversDisplay (drawnRects (menuCalls c w h)) w h ↔
      (w = 0 ∨ h = 0 ∨ (2 ∣ w ∧ 4 ∣ h))) := by
  have dw := cdiv_two w
  have dh := cdiv_four h
  refine ⟨by rw [drawnRects_menu]; rfl, ?_, ?_, mem_grid_iff c w h, ?_, ?_⟩
  · rw [drawnRects_menu]
    simp only [List.pairwise_cons, List.mem_cons, List.mem_singleton, List.not_mem_nil,
      forall_eq_or_imp, forall_eq, IsEmpty.forall_iff, implies_true, and_true,
      List.Pairwise.nil, Rect.contains]
    repeat' apply And.intro
    all_goals intro px py; omega
  · intro r hr px py hc
    have hg := (mem_grid_iff c w h px py).mp ⟨r, hr, hc⟩
    unfold inDisplay at *
    omega
  · intro px py hin
    rw [mem_grid_iff]
    unfold inDisplay at *
    omega
  · unfold coversDisplay
    simp only [mem_grid_iff]
    constructor
    · intro hc
      by_cases hz : w = 0 ∨ h = 0
      · omega
      · have h1 := hc (w - 1) 0 (by unfold inDisplay; omega)
        have h2 := hc 0 (h - 1) (by unfold inDisplay; omega)
        unfold inDisplay at h1 h2
        omega
    · intro hd px py hin
      unfold inDisplay at *
      omega

/-- The tile geometry applied to a 135 by 240 display, whose last column stays
uncovered. -/
theorem tiles_disjoint_and_cover_witness :
    (0 : Int) ≤ 135 ∧ (0 : Int) ≤ 240 ∧
    (drawnRects (menuCalls rgb565 135 240)).length = 8 ∧
    (drawnRects (menuCalls rgb565 135 240)).Pairwise
      (fun r s => ∀ px py : Int, ¬ (r.contains px py ∧ s.contains px py)) ∧
    (∀ r ∈ drawnRects (menuCalls rgb565 135 240), ∀ px py : Int,
      r.contains px py → inDisplay 135 240 px py) ∧
    (∀ px py : Int, (∃ r ∈ drawnRects (menuCalls rgb565 135 240), r.contains px py) ↔
      inDisplay (2 * cdiv 135 2) (4 * cdiv 240 4) px py) ∧
    (∀ px py : Int, inDisplay 135 240 px py →
      ((¬ ∃ r ∈ drawnRects (menuCalls rgb565 135 240), r.contains px py) ↔
        (135 - 135 % 2 ≤ px ∨ 240 - 240 % 4 ≤ py))) ∧
    (coversDisplay (drawnRects (menuCalls rgb565 135 240)) 135 240 ↔
      ((135 : Int) = 0 ∨ (240 : Int) = 0 ∨ ((2 : Int) ∣ 135 ∧ (4 : Int) ∣ 240))) :=
  ⟨by decide, by decide, tiles_disjoint_and_cover rgb565 135 240 (by decide) (by decide)⟩

end M5Reader
